import Mathlib

/-!
Verification of the cost-accounting engine of `shared_utils.llm_requests`.

The Python modules `types.py`, `openai/pricing.py`, `gemini/pricing.py` and
`pricing_calculator.py` are embedded shallowly:

* Python `float` prices are modelled as exact rationals (`ℚ`);
* Python `int` token counts are modelled as `ℤ`;
* Python strings are modelled as `List Char`;
* a raised exception is modelled as the `error` branch of an `Except`
  (or as `none` for a bare `KeyError` possibility);
* the mutating `__iadd__` is modelled as a function returning the updated
  object.
-/

set_option maxRecDepth 4000

attribute [local semireducible] Rat.add Rat.mul Rat.inv Rat.sub Rat.ofScientific

/-- Equality on `Except` values is decidable when it is on both components. -/
instance exceptDecEq {ε α : Type} [DecidableEq ε] [DecidableEq α] :
    DecidableEq (Except ε α) := fun a b =>
  match a, b with
  | .ok x, .ok y =>
    if h : x = y then .isTrue (by rw [h]) else .isFalse (fun he => h (Except.ok.inj he))
  | .error x, .error y =>
    if h : x = y then .isTrue (by rw [h]) else .isFalse (fun he => h (Except.error.inj he))
  | .ok _, .error _ => .isFalse (fun he => Except.noConfusion he)
  | .error _, .ok _ => .isFalse (fun he => Except.noConfusion he)

/-- Python `int(x)` on a rational: truncation toward zero. -/
def pyInt (q : ℚ) : ℤ :=
  if 0 ≤ q then q.floor else -((-q).floor)

/-- Embedding of `ModelPricing` from `llm_requests/types.py`. -/
structure ModelPricing where
  input : ℚ
  input_cached : Option ℚ := none
  output : Option ℚ := none
  currency : List Char := "dollar".toList
  currency_symbol : List Char := "$".toList
deriving DecidableEq, Repr

/-- Embedding of `ResponsePrice` from `llm_requests/types.py`. -/
structure ResponsePrice where
  input_price : ℚ := 0
  input_cached_price : ℚ := 0
  output_price : ℚ := 0
  total_price : ℚ := 0
  input_tokens : ℤ := 0
  input_cached_tokens : ℤ := 0
  output_tokens : ℤ := 0
  input_pricing : ℚ := 0
  input_cached_pricing : ℚ := 0
  output_pricing : ℚ := 0
  currency : List Char := "dollar".toList
  currency_symbol : List Char := "$".toList
  quantity : ℤ := 1
deriving DecidableEq, Repr

/-- Embedding of `ResponsePrice.from_tokens` (types.py lines 61–98). -/
def ResponsePrice.from_tokens (model_pricing : ModelPricing) (input_tokens : ℤ)
    (input_cached_tokens : ℤ := 0) (output_tokens : ℤ := 0) : ResponsePrice :=
  let input_cost : ℚ := (input_tokens * model_pricing.input) / 1000000
  let input_cached_cost : ℚ :=
    match model_pricing.input_cached with
    | some q => (input_cached_tokens * q) / 1000000
    | none => 0
  let output_cost : ℚ :=
    match model_pricing.output with
    | some q => (output_tokens * q) / 1000000
    | none => 0
  { input_price := input_cost
    input_cached_price := input_cached_cost
    output_price := output_cost
    total_price := input_cost + input_cached_cost + output_cost
    input_tokens := input_tokens
    input_cached_tokens := input_cached_tokens
    output_tokens := output_tokens
    input_pricing := model_pricing.input
    input_cached_pricing := model_pricing.input_cached.getD 0
    output_pricing := model_pricing.output.getD 0
    currency := model_pricing.currency
    currency_symbol := model_pricing.currency_symbol
    quantity := 1 }

/-- Embedding of `ResponsePrice.from_duration` (types.py lines 100–125).
The Python code stores `int(duration_seconds)` in the `input_tokens` field. -/
def ResponsePrice.from_duration (model_pricing : ModelPricing)
    (duration_seconds : ℚ) : ResponsePrice :=
  let cost : ℚ := duration_seconds * model_pricing.input
  { input_price := cost
    input_cached_price := 0
    output_price := 0
    total_price := cost
    input_tokens := pyInt duration_seconds
    input_cached_tokens := 0
    output_tokens := 0
    input_pricing := model_pricing.input
    input_cached_pricing := 0
    output_pricing := 0
    currency := model_pricing.currency
    currency_symbol := model_pricing.currency_symbol
    quantity := 1 }

/-- The `ValueError` raised by `ResponsePrice.__add__` / `__iadd__` on a
currency mismatch. -/
inductive PriceAddError where
  | currencyMismatch (a b : List Char)
deriving DecidableEq, Repr

/-- Embedding of `ResponsePrice.__add__` (types.py lines 127–165). -/
def ResponsePrice.add (a b : ResponsePrice) : Except PriceAddError ResponsePrice :=
  if a.currency ≠ b.currency then
    .error (.currencyMismatch a.currency b.currency)
  else
    .ok { input_price := a.input_price + b.input_price
          input_cached_price := a.input_cached_price + b.input_cached_price
          output_price := a.output_price + b.output_price
          total_price := a.total_price + b.total_price
          input_tokens := a.input_tokens + b.input_tokens
          input_cached_tokens := a.input_cached_tokens + b.input_cached_tokens
          output_tokens := a.output_tokens + b.output_tokens
          input_pricing := a.input_pricing
          input_cached_pricing := a.input_cached_pricing
          output_pricing := a.output_pricing
          currency := a.currency
          currency_symbol := a.currency_symbol
          quantity := a.quantity + b.quantity }

/-- Embedding of `ResponsePrice.__iadd__` (types.py lines 167–191): the
in-place update, modelled as returning the updated `self`.  The fields not
assigned by the Python method (`input_pricing`, `input_cached_pricing`,
`output_pricing`, `currency`, `currency_symbol`) keep `self`'s values. -/
def ResponsePrice.iadd (a b : ResponsePrice) : Except PriceAddError ResponsePrice :=
  if a.currency ≠ b.currency then
    .error (.currencyMismatch a.currency b.currency)
  else
    .ok { a with
          input_price := a.input_price + b.input_price
          input_cached_price := a.input_cached_price + b.input_cached_price
          output_price := a.output_price + b.output_price
          total_price := a.total_price + b.total_price
          input_tokens := a.input_tokens + b.input_tokens
          input_cached_tokens := a.input_cached_tokens + b.input_cached_tokens
          output_tokens := a.output_tokens + b.output_tokens
          quantity := a.quantity + b.quantity }

/-- The documented invariant of a `ResponsePrice` aggregate. -/
def TotalInvariant (r : ResponsePrice) : Prop :=
  r.total_price = r.input_price + r.input_cached_price + r.output_price

/-- Component-wise equality on the fields that `__add__` sums (prices,
token counts, quantity). -/
def SummedFieldsEq (r s : ResponsePrice) : Prop :=
  r.input_price = s.input_price ∧
  r.input_cached_price = s.input_cached_price ∧
  r.output_price = s.output_price ∧
  r.total_price = s.total_price ∧
  r.input_tokens = s.input_tokens ∧
  r.input_cached_tokens = s.input_cached_tokens ∧
  r.output_tokens = s.output_tokens ∧
  r.quantity = s.quantity

/-- First-match association-list lookup, the embedding of a Python `dict`
indexing/membership test (`dict` keys are unique, in insertion order). -/
def findEntry {α : Type} (k : List Char) : List (List Char × α) → Option α
  | [] => none
  | (k', v) :: rest => if k = k' then some v else findEntry k rest

/-- Embedding of the OpenAI `PRICINGS` table (openai/pricing.py lines 11–50). -/
def PRICINGS : List (List Char × List (List Char × ModelPricing)) :=
  [ ("gpt-5.1".toList,
      [ ("default".toList, { input := 1.250, input_cached := some 0.125, output := some 10.000 }),
        ("priority".toList, { input := 2.50, input_cached := some 0.25, output := some 20.00 }),
        ("flex".toList, { input := 0.625, input_cached := some 0.0625, output := some 5.00 }) ]),
    ("gpt-5".toList,
      [ ("default".toList, { input := 1.250, input_cached := some 0.125, output := some 10.000 }),
        ("priority".toList, { input := 2.50, input_cached := some 0.25, output := some 20.00 }),
        ("flex".toList, { input := 0.625, input_cached := some 0.0625, output := some 5.00 }) ]),
    ("gpt-5-mini".toList,
      [ ("default".toList, { input := 0.250, input_cached := some 0.025, output := some 2.000 }),
        ("priority".toList, { input := 0.45, input_cached := some 0.045, output := some 3.60 }),
        ("flex".toList, { input := 0.125, input_cached := some 0.0125, output := some 1.00 }) ]),
    ("gpt-5-nano".toList,
      [ ("default".toList, { input := 0.050, input_cached := some 0.005, output := some 0.400 }),
        ("flex".toList, { input := 0.025, input_cached := some 0.0025, output := some 0.20 }) ]),
    ("gpt-5-pro".toList,
      [ ("default".toList, { input := 15.000, input_cached := none, output := some 120.000 }) ]),
    ("gpt-4.1".toList,
      [ ("default".toList, { input := 2.000, input_cached := some 0.50, output := some 8.000 }),
        ("priority".toList, { input := 3.50, input_cached := some 0.875, output := some 14.00 }) ]),
    ("gpt-4.1-mini".toList,
      [ ("default".toList, { input := 0.40, input_cached := some 0.10, output := some 1.60 }),
        ("priority".toList, { input := 0.70, input_cached := some 0.175, output := some 2.80 }) ]),
    ("gpt-4.1-nano".toList,
      [ ("default".toList, { input := 0.10, input_cached := some 0.025, output := some 0.40 }),
        ("priority".toList, { input := 0.20, input_cached := some 0.05, output := some 0.80 }) ]),
    ("whisper-1".toList,
      [ ("default".toList, { input := 0.0001 }) ]) ]

/-- The `KeyError`s raised by `OpenAIPricingCalculator._get_pricing` and the
`ValueError` raised by `get_price` when an STT response comes without a model
name (openai/pricing.py lines 74–78 and 106–107). -/
inductive PricingError where
  | unknownModel (model : List Char)
  | unknownTier (tier : List Char) (model : List Char) (available : List (List Char))
  | missingModelName
deriving DecidableEq, Repr

/-- Embedding of `OpenAIPricingCalculator._get_pricing` (openai/pricing.py
lines 61–79): strict lookup, `KeyError` on unknown model, `KeyError` naming
the available tiers on unknown tier. -/
def openai_get_pricing (model_name : List Char) (service_tier : List Char := "default".toList) :
    Except PricingError ModelPricing :=
  match findEntry model_name PRICINGS with
  | none => .error (.unknownModel model_name)
  | some model_pricings =>
    match findEntry service_tier model_pricings with
    | none => .error (.unknownTier service_tier model_name (model_pricings.map Prod.fst))
    | some p => .ok p

/-- Whether `n` occurs as a contiguous run at the front of `h`. -/
def runAtFront : List Char → List Char → Bool
  | [], _ => true
  | _ :: _, [] => false
  | a :: as, b :: bs => a = b && runAtFront as bs

/-- Python's substring test `n in h`, the embedding of the `"pro" in
model_name` check of gemini/pricing.py line 39. -/
def hasSub (n : List Char) : List Char → Bool
  | [] => runAtFront n []
  | c :: t => runAtFront n (c :: t) || hasSub n t

/-- Whether the reversed character list starts with a reversed `-YYYY-MM-DD`
date suffix, i.e. whether the original string matches `-\d4-\d2-\d2$`. -/
def revDateMatch : List Char → Bool
  | d1 :: d2 :: '-' :: m1 :: m2 :: '-' :: y1 :: y2 :: y3 :: y4 :: '-' :: _ =>
    d1.isDigit && d2.isDigit && m1.isDigit && m2.isDigit &&
      y1.isDigit && y2.isDigit && y3.isDigit && y4.isDigit
  | _ => false

/-- Embedding of `re.sub(r"-\d4-\d2-\d2$", "", name)` (openai/pricing.py
line 110): strip one trailing date suffix, if present. -/
def strip_date_suffix (name : List Char) : List Char :=
  if revDateMatch name.reverse then (name.reverse.drop 11).reverse else name

/-- Embedding of the LLM branch of `OpenAIPricingCalculator.get_price`
(openai/pricing.py lines 101–118): the response has a `model` attribute, the
date suffix is stripped, the pricing is resolved strictly, and the usage is
priced with uncached input `input_tokens - cached_tokens` — with no check
that this difference is non-negative. -/
def openai_get_price_llm (model service_tier : List Char)
    (input_tokens output_tokens cached_tokens : ℤ) : Except PricingError ResponsePrice :=
  match openai_get_pricing (strip_date_suffix model) service_tier with
  | .error e => .error e
  | .ok pricing =>
    .ok (ResponsePrice.from_tokens pricing (input_tokens - cached_tokens) cached_tokens output_tokens)

/-- Embedding of the STT branch of `OpenAIPricingCalculator.get_price`
(openai/pricing.py lines 101–123): no `model` attribute on the response, the
model name must be supplied by the caller, usage is a duration in seconds. -/
def openai_get_price_stt (stt_model_name : Option (List Char)) (duration_seconds : ℚ) :
    Except PricingError ResponsePrice :=
  match stt_model_name with
  | none => .error .missingModelName
  | some name =>
    match openai_get_pricing (strip_date_suffix name) with
    | .error e => .error e
    | .ok pricing => .ok (ResponsePrice.from_duration pricing duration_seconds)

/-- The default-tier record of `gemini-3-pro-preview` in `GEMINI_PRICINGS`. -/
def geminiProDefault : ModelPricing := { input := 2.00, output := some 12.00 }

/-- The default-tier record of `gemini-3-flash-preview` in `GEMINI_PRICINGS`. -/
def geminiFlashDefault : ModelPricing := { input := 0.50, output := some 3.00 }

/-- Embedding of the Gemini `GEMINI_PRICINGS` table (gemini/pricing.py
lines 8–13). -/
def GEMINI_PRICINGS : List (List Char × List (List Char × ModelPricing)) :=
  [ ("gemini-3-pro-preview".toList, [("default".toList, geminiProDefault)]),
    ("gemini-3-flash-preview".toList, [("default".toList, geminiFlashDefault)]) ]

/-- Embedding of `GeminiPricingCalculator._get_pricing` (gemini/pricing.py
lines 22–43).  `none` models the only possible `KeyError` (a missing
`"default"` key, which cannot happen with the table above).  On an exact
model match Python evaluates `GEMINI_PRICINGS[model_name]["default"]` eagerly
as the default argument of `.get`, hence the outer match on that lookup. -/
def gemini_get_pricing (model_name : List Char) (service_tier : List Char := "default".toList) :
    Option ModelPricing :=
  match findEntry model_name GEMINI_PRICINGS with
  | some tiers =>
    match findEntry "default".toList tiers with
    | none => none
    | some dflt => some ((findEntry service_tier tiers).getD dflt)
  | none =>
    if hasSub "pro".toList model_name then
      (findEntry "gemini-3-pro-preview".toList GEMINI_PRICINGS).bind (findEntry "default".toList)
    else
      (findEntry "gemini-3-flash-preview".toList GEMINI_PRICINGS).bind (findEntry "default".toList)


/-- Provider tag chosen by `ConsolidatedPricingCalculator.get_price`. -/
inductive Provider where
  | openai
  | gemini
deriving DecidableEq, Repr

/-- Where a response ends up after the dispatcher picks the provider and the
provider calculator picks its mode (`mode = "LLM"`/`"STT"` in
openai/pricing.py lines 101–107). -/
inductive Route where
  | gemini
  | openaiLLM
  | openaiSTT
deriving DecidableEq, Repr

/-- The `ValueError` raised by `ConsolidatedPricingCalculator.get_price`
when no provider can be deduced (pricing_calculator.py line 41). -/
inductive DetectError where
  | providerDetection
deriving DecidableEq, Repr

/-- The duck-typed shape of an arbitrary Python response value, as probed by
`ConsolidatedPricingCalculator.get_price` and `OpenAIPricingCalculator.get_price`:
which attributes exist, whether it is a `dict`, and — when it is a `dict`
with a `'usage'` key — whether that usage has a `'seconds'` key. -/
structure PyValue where
  has_usage_metadata : Bool
  has_service_tier : Bool
  is_openai_response_type : Bool
  is_dict : Bool
  has_model_attr : Bool
  dict_usage : Option Bool
deriving DecidableEq, Repr

/-- Embedding of the provider-detection chain of
`ConsolidatedPricingCalculator.get_price` (pricing_calculator.py lines
29–41), in source order. -/
def detect_provider (r : PyValue) : Except DetectError Provider :=
  if r.has_usage_metadata then .ok .gemini
  else if r.has_service_tier then .ok .openai
  else if r.is_openai_response_type then .ok .openai
  else if r.is_dict && r.dict_usage.getD false then .ok .openai
  else if r.is_dict && r.dict_usage.isSome then .ok .openai
  else .error .providerDetection

/-- Detection composed with the provider calculator's own branch: a response
routed to OpenAI is treated as LLM exactly when reading `response.model`
succeeds (openai/pricing.py lines 101–105); Gemini has a single branch. -/
def route (r : PyValue) : Except DetectError Route :=
  match detect_provider r with
  | .error e => .error e
  | .ok .gemini => .ok .gemini
  | .ok .openai => .ok (if r.has_model_attr then .openaiLLM else .openaiSTT)

/-- Python's `round`: round half to even, the rounding used by `round(...)`
and by `f"{value:.Nf}"` formatting. -/
def pyRound (q : ℚ) : ℤ :=
  let f := q.floor
  let r := q - f
  if r < 1/2 then f
  else if 1/2 < r then f + 1
  else if f % 2 = 0 then f else f + 1

/-- Decimal digits of a natural number, most significant first. -/
def natDigits (n : ℕ) : List Char :=
  Nat.toDigits 10 n

/-- Python `str(i)` for an integer. -/
def intDigits (i : ℤ) : List Char :=
  if i < 0 then '-' :: natDigits (-i).toNat else natDigits i.toNat

/-- Python `f"{v:.dpf}"` on a non-negative value: fixed-point notation with
`dp` digits after the point (none, and no point, when `dp = 0`), rounding
half to even. -/
def fixedFmtAbs (dp : ℕ) (v : ℚ) : List Char :=
  let n := (pyRound (v * 10 ^ dp)).toNat
  if dp = 0 then natDigits n
  else
    let frac := natDigits (n % 10 ^ dp)
    natDigits (n / 10 ^ dp) ++ '.' :: (List.replicate (dp - frac.length) '0' ++ frac)

/-- Python `f"{v:.dpf}"`, with the sign carried on the absolute-value
rendering (so that `-0.001` at two decimals gives `-0.00`). -/
def fixedFmt (dp : ℕ) (v : ℚ) : List Char :=
  if v < 0 then '-' :: fixedFmtAbs dp (-v) else fixedFmtAbs dp v

/-- Python `s.rstrip('0')`. -/
def rstripZeros (l : List Char) : List Char :=
  (l.reverse.dropWhile (fun c => c = '0')).reverse

/-- Embedding of the inner `format_price` of
`ResponsePrice._format_human_readable` (types.py lines 205–213): fix
`decimal_places` decimals, strip the trailing zeros, and restore a single
`'0'` when everything after the point was stripped. -/
def format_price (decimal_places : ℕ) (value : ℚ) : List Char :=
  let formatted := rstripZeros (fixedFmt decimal_places value)
  if formatted.getLast? = some '.' then formatted ++ ['0'] else formatted

/-- Embedding of the inner `get_percentage` of
`ResponsePrice._format_human_readable` (types.py lines 215–219). -/
def get_percentage (value total : ℚ) : List Char :=
  if total = 0 then "0%".toList
  else intDigits (pyRound (100 * value / total)) ++ "%".toList

/-- Embedding of `ResponsePrice._format_human_readable` (types.py lines
193–243), producing the rendered cost breakdown as a character list. -/
def ResponsePrice.formatHumanReadable (r : ResponsePrice) (decimal_places : ℕ := 8) : List Char :=
  let parts : List (List Char) :=
    (if 0 < r.input_price then
      [r.currency_symbol ++ format_price decimal_places r.input_price ++
        " (input, ".toList ++ get_percentage r.input_price r.total_price ++ ")".toList]
     else []) ++
    (if 0 < r.input_cached_price then
      [r.currency_symbol ++ format_price decimal_places r.input_cached_price ++
        " (cached, ".toList ++ get_percentage r.input_cached_price r.total_price ++ ")".toList]
     else []) ++
    (if 0 < r.output_price then
      [r.currency_symbol ++ format_price decimal_places r.output_price ++
        " (output, ".toList ++ get_percentage r.output_price r.total_price ++ ")".toList]
     else [])
  let breakdown :=
    if parts = [] then r.currency_symbol ++ "0".toList
    else List.intercalate " + ".toList parts
  let result := breakdown ++ " = ".toList ++ r.currency_symbol ++
    format_price decimal_places r.total_price ++ " total".toList
  if 1 < r.quantity then
    result ++ " (x".toList ++ intDigits r.quantity ++ " appels, ".toList ++
      r.currency_symbol ++ format_price decimal_places (r.total_price / r.quantity) ++
      " par appel)".toList
  else result

/-- The rendering contract stated by the specification (amended to the
wording the code produces: the call-count suffix reads `appels` / `par
appel`): list the three components labelled `input` / `cached` / `output`,
omit every component whose price is exactly 0, join with `" + "`, show the
total, and append the per-call summary exactly when `quantity > 1`. -/
def renderSpec (r : ResponsePrice) (decimal_places : ℕ := 8) : List Char :=
  let pct (v : ℚ) : List Char :=
    if r.total_price = 0 then "0%".toList
    else intDigits (pyRound (100 * v / r.total_price)) ++ "%".toList
  let comps : List (ℚ × List Char) :=
    [(r.input_price, " (input, ".toList),
     (r.input_cached_price, " (cached, ".toList),
     (r.output_price, " (output, ".toList)]
  let kept := comps.filter (fun c => decide (c.1 ≠ 0))
  let parts := kept.map (fun c =>
    r.currency_symbol ++ format_price decimal_places c.1 ++ c.2 ++ pct c.1 ++ ")".toList)
  let breakdown :=
    if parts = [] then r.currency_symbol ++ "0".toList
    else List.intercalate " + ".toList parts
  let result := breakdown ++ " = ".toList ++ r.currency_symbol ++
    format_price decimal_places r.total_price ++ " total".toList
  if 1 < r.quantity then
    result ++ " (x".toList ++ intDigits r.quantity ++ " appels, ".toList ++
      r.currency_symbol ++ format_price decimal_places (r.total_price / r.quantity) ++
      " par appel)".toList
  else result

/-- The normalization-then-lookup performed by `OpenAIPricingCalculator.get_price`
(openai/pricing.py lines 109–114): strip the date suffix, then resolve
strictly. -/
def openai_resolve (model_name tier : List Char) : Except PricingError ModelPricing :=
  openai_get_pricing (strip_date_suffix model_name) tier

/-- The default-tier record of `gpt-4.1-nano` in `PRICINGS`. -/
def gpt41nanoDefault : ModelPricing :=
  { input := 0.10, input_cached := some 0.025, output := some 0.40 }

/-- C1: `from_tokens` computes `input_price = input_tokens * price.input / 1e6`,
`input_cached_price = cached_tokens * cached_rate / 1e6` when the cached rate is
present (0 when absent), `output_price = output_tokens * output_rate / 1e6` when
the output rate is present (0 when absent), and `total_price` is the sum of the
three; with the gpt-4.1-nano default-tier prices and uncached input 800,
cached 200, output 50 the prices are 0.00008, 0.000005, 0.00002 and the total
is 0.000105. -/
theorem from_tokens_formulas (p : ModelPricing) (i c o : ℤ)
    (_hi : 0 ≤ i) (_hc : 0 ≤ c) (_ho : 0 ≤ o) :
    ((ResponsePrice.from_tokens p i c o).input_price = (i : ℚ) * p.input / 1000000 ∧
     (ResponsePrice.from_tokens p i c o).input_cached_price =
       (match p.input_cached with
        | some q => (c : ℚ) * q / 1000000
        | none => 0) ∧
     (ResponsePrice.from_tokens p i c o).output_price =
       (match p.output with
        | some q => (o : ℚ) * q / 1000000
        | none => 0) ∧
     (ResponsePrice.from_tokens p i c o).total_price =
       (ResponsePrice.from_tokens p i c o).input_price +
         (ResponsePrice.from_tokens p i c o).input_cached_price +
         (ResponsePrice.from_tokens p i c o).output_price) ∧
    openai_get_pricing "gpt-4.1-nano".toList "default".toList = .ok gpt41nanoDefault ∧
    (ResponsePrice.from_tokens gpt41nanoDefault 800 200 50).input_price = 0.00008 ∧
    (ResponsePrice.from_tokens gpt41nanoDefault 800 200 50).input_cached_price = 0.000005 ∧
    (ResponsePrice.from_tokens gpt41nanoDefault 800 200 50).output_price = 0.00002 ∧
    (ResponsePrice.from_tokens gpt41nanoDefault 800 200 50).total_price = 0.000105 :=
  ⟨⟨rfl, rfl, rfl, rfl⟩, by decide, by decide, by decide, by decide, by decide⟩

/-- Witness for `from_tokens_formulas` at the gpt-4.1-nano scenario. -/
theorem from_tokens_formulas_witness :
    (0 : ℤ) ≤ 800 ∧ (0 : ℤ) ≤ 200 ∧ (0 : ℤ) ≤ 50 ∧
    (ResponsePrice.from_tokens gpt41nanoDefault 800 200 50).total_price =
      (ResponsePrice.from_tokens gpt41nanoDefault 800 200 50).input_price +
        (ResponsePrice.from_tokens gpt41nanoDefault 800 200 50).input_cached_price +
        (ResponsePrice.from_tokens gpt41nanoDefault 800 200 50).output_price :=
  ⟨by decide, by decide, by decide,
    (from_tokens_formulas gpt41nanoDefault 800 200 50 (by decide) (by decide)
      (by decide)).1.2.2.2⟩

/-- C2: `total_price = input_price + input_cached_price + output_price` holds
for every aggregate produced by `from_tokens` or `from_duration`, and is
preserved by `__add__` (combine) and `__iadd__` (accumulate) whenever both
operands satisfy it. -/
theorem total_reconciliation :
    (∀ (p : ModelPricing) (i c o : ℤ), TotalInvariant (ResponsePrice.from_tokens p i c o)) ∧
    (∀ (p : ModelPricing) (d : ℚ), TotalInvariant (ResponsePrice.from_duration p d)) ∧
    (∀ a b r : ResponsePrice, TotalInvariant a → TotalInvariant b →
      a.add b = .ok r → TotalInvariant r) ∧
    (∀ a b r : ResponsePrice, TotalInvariant a → TotalInvariant b →
      a.iadd b = .ok r → TotalInvariant r) := by
  refine ⟨fun p i c o => rfl, fun p d => ?_, fun a b r ha hb h => ?_, fun a b r ha hb h => ?_⟩
  · show d * p.input = d * p.input + 0 + 0
    ring
  · unfold ResponsePrice.add at h
    split at h
    · exact Except.noConfusion h
    · rw [Except.ok.injEq] at h
      subst h
      unfold TotalInvariant at *
      show a.total_price + b.total_price = _
      rw [ha, hb]
      ring
  · unfold ResponsePrice.iadd at h
    split at h
    · exact Except.noConfusion h
    · rw [Except.ok.injEq] at h
      subst h
      unfold TotalInvariant at *
      show a.total_price + b.total_price = _
      rw [ha, hb]
      ring

/-- Witness for `total_reconciliation`: combining the gpt-4.1-nano token
aggregate with itself yields the doubled aggregate, which still satisfies
the invariant. -/
theorem total_reconciliation_witness :
    TotalInvariant (ResponsePrice.from_tokens gpt41nanoDefault 800 200 50) ∧
    TotalInvariant
      { input_price := 0.00016, input_cached_price := 0.00001,
        output_price := 0.00004, total_price := 0.00021,
        input_tokens := 1600, input_cached_tokens := 400, output_tokens := 100,
        input_pricing := 0.1, input_cached_pricing := 0.025, output_pricing := 0.4,
        quantity := 2 } :=
  ⟨total_reconciliation.1 gpt41nanoDefault 800 200 50,
    total_reconciliation.2.2.1
      (ResponsePrice.from_tokens gpt41nanoDefault 800 200 50)
      (ResponsePrice.from_tokens gpt41nanoDefault 800 200 50) _
      (total_reconciliation.1 gpt41nanoDefault 800 200 50)
      (total_reconciliation.1 gpt41nanoDefault 800 200 50)
      (by decide)⟩

/-- C7: `__add__` raises `CurrencyMismatchError` exactly when the currencies
differ; with matching currencies it field-wise sums all price, token and
quantity fields and carries the applied-unit-price fields from the left
operand; the summed fields are commutative and associative; and `__iadd__`
performs exactly the same check and updates. -/
theorem combine_properties :
    (∀ a b : ResponsePrice, a.currency ≠ b.currency →
      a.add b = .error (.currencyMismatch a.currency b.currency)) ∧
    (∀ a b : ResponsePrice, a.currency = b.currency →
      ∃ r, a.add b = .ok r ∧
        r.input_price = a.input_price + b.input_price ∧
        r.input_cached_price = a.input_cached_price + b.input_cached_price ∧
        r.output_price = a.output_price + b.output_price ∧
        r.total_price = a.total_price + b.total_price ∧
        r.input_tokens = a.input_tokens + b.input_tokens ∧
        r.input_cached_tokens = a.input_cached_tokens + b.input_cached_tokens ∧
        r.output_tokens = a.output_tokens + b.output_tokens ∧
        r.quantity = a.quantity + b.quantity ∧
        r.input_pricing = a.input_pricing ∧
        r.input_cached_pricing = a.input_cached_pricing ∧
        r.output_pricing = a.output_pricing) ∧
    (∀ a b r s : ResponsePrice, a.add b = .ok r → b.add a = .ok s →
      SummedFieldsEq r s) ∧
    (∀ a b c ab abc bc abc2 : ResponsePrice, a.add b = .ok ab → ab.add c = .ok abc →
      b.add c = .ok bc → a.add bc = .ok abc2 → SummedFieldsEq abc abc2) ∧
    (∀ a b : ResponsePrice, a.iadd b = a.add b) := by
  have hok : ∀ a b r : ResponsePrice, a.add b = .ok r →
      a.currency = b.currency ∧
      r = { input_price := a.input_price + b.input_price
            input_cached_price := a.input_cached_price + b.input_cached_price
            output_price := a.output_price + b.output_price
            total_price := a.total_price + b.total_price
            input_tokens := a.input_tokens + b.input_tokens
            input_cached_tokens := a.input_cached_tokens + b.input_cached_tokens
            output_tokens := a.output_tokens + b.output_tokens
            input_pricing := a.input_pricing
            input_cached_pricing := a.input_cached_pricing
            output_pricing := a.output_pricing
            currency := a.currency
            currency_symbol := a.currency_symbol
            quantity := a.quantity + b.quantity } := by
    intro a b r h
    unfold ResponsePrice.add at h
    split at h
    · exact Except.noConfusion h
    · rename_i hcur
      rw [not_not] at hcur
      exact ⟨hcur, (Except.ok.inj h).symm⟩
  refine ⟨?_, ?_, ?_, ?_, ?_⟩
  · intro a b hne
    unfold ResponsePrice.add
    rw [if_pos hne]
  · intro a b heq
    unfold ResponsePrice.add
    rw [if_neg (not_not.mpr heq)]
    exact ⟨_, rfl, rfl, rfl, rfl, rfl, rfl, rfl, rfl, rfl, rfl, rfl, rfl⟩
  · intro a b r s h1 h2
    obtain ⟨-, h1⟩ := hok a b r h1
    obtain ⟨-, h2⟩ := hok b a s h2
    subst h1; subst h2
    exact ⟨by ring, by ring, by ring, by ring, by ring, by ring, by ring, by ring⟩
  · intro a b c ab abc bc abc2 h1 h2 h3 h4
    obtain ⟨-, h1⟩ := hok a b ab h1
    subst h1
    obtain ⟨-, h2⟩ := hok _ c abc h2
    subst h2
    obtain ⟨-, h3⟩ := hok b c bc h3
    subst h3
    obtain ⟨-, h4⟩ := hok a _ abc2 h4
    subst h4
    exact ⟨by ring, by ring, by ring, by ring, by ring, by ring, by ring, by ring⟩
  · intro a b
    unfold ResponsePrice.add ResponsePrice.iadd
    rfl

/-- Witness for `combine_properties`: currency mismatch on the euro/dollar
pair, and the field-wise sum on a matching pair. -/
theorem combine_properties_witness :
    ({ currency := "euro".toList } : ResponsePrice).currency ≠
      ({ } : ResponsePrice).currency ∧
    ResponsePrice.add { currency := "euro".toList } { } =
      .error (.currencyMismatch "euro".toList "dollar".toList) ∧
    (∃ r, ResponsePrice.add (ResponsePrice.from_tokens gpt41nanoDefault 800 200 50)
        (ResponsePrice.from_tokens gpt41nanoDefault 800 200 50) = .ok r ∧
      r.input_price = 0.00008 + 0.00008) := by
  refine ⟨by decide, ?_, ?_⟩
  · exact combine_properties.1 { currency := "euro".toList } { } (by decide)
  · obtain ⟨r, hr, hip, -⟩ := combine_properties.2.1
      (ResponsePrice.from_tokens gpt41nanoDefault 800 200 50)
      (ResponsePrice.from_tokens gpt41nanoDefault 800 200 50) rfl
    exact ⟨r, hr, by rw [hip]; decide⟩

/-- C10: `from_duration` stores the integer truncation of the duration in the
`input_tokens` field while billing the full duration: `input_price` and
`total_price` are `duration_seconds * rate`, so for every non-integer
duration the stored count understates the duration billed (count times rate
is strictly below the price), and the stored count does not determine the
price (two different price records and durations share a price with
different stored counts). -/
theorem from_duration_truncation :
    (∀ (p : ModelPricing) (d : ℚ), 0 ≤ d →
      (ResponsePrice.from_duration p d).input_tokens = d.floor ∧
      (ResponsePrice.from_duration p d).input_price = d * p.input ∧
      (ResponsePrice.from_duration p d).total_price = d * p.input) ∧
    (∀ (p : ModelPricing) (d : ℚ), 0 ≤ d → (d.floor : ℚ) ≠ d →
      ((ResponsePrice.from_duration p d).input_tokens : ℚ) < d ∧
      (0 < p.input →
        ((ResponsePrice.from_duration p d).input_tokens : ℚ) * p.input <
          (ResponsePrice.from_duration p d).input_price)) ∧
    ((ResponsePrice.from_duration { input := 1 } (5/2)).input_price =
      (ResponsePrice.from_duration { input := 5/2 } 1).input_price ∧
     (ResponsePrice.from_duration { input := 1 } (5/2)).input_tokens ≠
      (ResponsePrice.from_duration { input := 5/2 } 1).input_tokens) := by
  have htok : ∀ (p : ModelPricing) (d : ℚ), 0 ≤ d →
      (ResponsePrice.from_duration p d).input_tokens = d.floor := by
    intro p d hd
    show pyInt d = d.floor
    unfold pyInt
    rw [if_pos hd]
  refine ⟨fun p d hd => ⟨htok p d hd, rfl, rfl⟩, ?_, by decide, by decide⟩
  intro p d hd hne
  have hfl : ∀ q : ℚ, q.floor = ⌊q⌋ := fun q => by
    rw [Rat.floor_def, Rat.floor_def']
  have hlt : ((ResponsePrice.from_duration p d).input_tokens : ℚ) < d := by
    rw [htok p d hd, hfl]
    exact lt_of_le_of_ne (Int.floor_le d) (by rw [← hfl]; exact hne)
  exact ⟨hlt, fun hp => by
    have := mul_lt_mul_of_pos_right hlt hp
    simpa using this⟩

/-- Witness for `from_duration_truncation` at duration 2.5 seconds and the
whisper-1 rate. -/
theorem from_duration_truncation_witness :
    (0 : ℚ) ≤ 5/2 ∧ ((5/2 : ℚ).floor : ℚ) ≠ 5/2 ∧
    (ResponsePrice.from_duration { input := 0.0001 } (5/2)).input_tokens = (5/2 : ℚ).floor ∧
    ((ResponsePrice.from_duration { input := 0.0001 } (5/2)).input_tokens : ℚ) < 5/2 :=
  ⟨by decide, by decide,
    (from_duration_truncation.1 { input := 0.0001 } (5/2) (by decide)).1,
    (from_duration_truncation.2.1 { input := 0.0001 } (5/2) (by decide) (by decide)).1⟩

/-- C5: OpenAI resolution is strict: a model whose normalized name is absent
from `PRICINGS` fails with the unknown-model error, a known model with an
absent tier fails with the unknown-tier error naming the tiers that do
exist, a success can only come from an actual table entry (no fallback),
and `"made-up-model"` is rejected. -/
theorem openai_resolution_strict :
    (∀ m t, findEntry (strip_date_suffix m) PRICINGS = none →
      openai_resolve m t = .error (.unknownModel (strip_date_suffix m))) ∧
    (∀ m t tiers, findEntry (strip_date_suffix m) PRICINGS = some tiers →
      findEntry t tiers = none →
      openai_resolve m t = .error (.unknownTier t (strip_date_suffix m) (tiers.map Prod.fst))) ∧
    (∀ m t p, openai_resolve m t = .ok p →
      ∃ tiers, findEntry (strip_date_suffix m) PRICINGS = some tiers ∧
        findEntry t tiers = some p) ∧
    openai_resolve "made-up-model".toList "default".toList =
      .error (.unknownModel "made-up-model".toList) ∧
    openai_resolve "gpt-4.1-nano".toList "economy".toList =
      .error (.unknownTier "economy".toList "gpt-4.1-nano".toList
        ["default".toList, "priority".toList]) := by
  refine ⟨?_, ?_, ?_, by decide, by decide⟩
  · intro m t h
    unfold openai_resolve openai_get_pricing
    rw [h]
  · intro m t tiers hm ht
    unfold openai_resolve openai_get_pricing
    simp only [hm, ht]
  · intro m t p h
    unfold openai_resolve openai_get_pricing at h
    rcases hm : findEntry (strip_date_suffix m) PRICINGS with - | tiers
    · simp [hm] at h
    · simp only [hm] at h
      rcases ht : findEntry t tiers with - | q
      · simp [ht] at h
      · simp only [ht, Except.ok.injEq] at h
        exact ⟨tiers, rfl, by rw [ht, h]⟩

/-- Witness for `openai_resolution_strict` at the two concrete failures of
spec scenario D and the tier example. -/
theorem openai_resolution_strict_witness :
    findEntry (strip_date_suffix "made-up-model".toList) PRICINGS = none ∧
    openai_resolve "made-up-model".toList "default".toList =
      .error (.unknownModel (strip_date_suffix "made-up-model".toList)) ∧
    openai_resolve "gpt-4.1-nano".toList "economy".toList =
      .error (.unknownTier "economy".toList (strip_date_suffix "gpt-4.1-nano".toList)
        ([("default".toList, gpt41nanoDefault),
          ("priority".toList, { input := 0.20, input_cached := some 0.05, output := some 0.80 })].map
            Prod.fst)) :=
  ⟨by decide,
    openai_resolution_strict.1 "made-up-model".toList "default".toList (by decide),
    openai_resolution_strict.2.1 "gpt-4.1-nano".toList "economy".toList
      [("default".toList, gpt41nanoDefault),
        ("priority".toList, { input := 0.20, input_cached := some 0.05, output := some 0.80 })]
      (by decide) (by decide)⟩

/-- C6: Gemini resolution never fails: an exact table match wins; otherwise a
name containing the substring `"pro"` resolves to the `gemini-3-pro-preview`
default record, and any other name (in particular `"made-up-model"`)
resolves to the `gemini-3-flash-preview` default record. -/
theorem gemini_resolution_lenient :
    (∀ m, findEntry m GEMINI_PRICINGS = none → hasSub "pro".toList m = true →
      gemini_get_pricing m "default".toList = some geminiProDefault) ∧
    (∀ m, findEntry m GEMINI_PRICINGS = none → hasSub "pro".toList m = false →
      gemini_get_pricing m "default".toList = some geminiFlashDefault) ∧
    gemini_get_pricing "gemini-3-pro-preview".toList "default".toList = some geminiProDefault ∧
    gemini_get_pricing "gemini-3-flash-preview".toList "default".toList = some geminiFlashDefault ∧
    gemini_get_pricing "made-up-model".toList "default".toList = some geminiFlashDefault ∧
    (∀ m t, (gemini_get_pricing m t).isSome = true) := by
  refine ⟨?_, ?_, by decide, by decide, by decide, ?_⟩
  · intro m hm hp
    unfold gemini_get_pricing
    rw [hm, hp]
    decide
  · intro m hm hp
    unfold gemini_get_pricing
    rw [hm, hp]
    decide
  · intro m t
    unfold gemini_get_pricing
    rcases hm : findEntry m GEMINI_PRICINGS with - | tiers
    · rcases hp : hasSub "pro".toList m with - | -
      · rfl
      · rfl
    · have htiers : tiers = [("default".toList, geminiProDefault)] ∨
          tiers = [("default".toList, geminiFlashDefault)] := by
        unfold GEMINI_PRICINGS findEntry at hm
        split at hm
        · exact .inl (Option.some.inj hm).symm
        · unfold findEntry at hm
          split at hm
          · exact .inr (Option.some.inj hm).symm
          · unfold findEntry at hm
            exact Option.noConfusion hm
      rcases htiers with h | h <;> subst h <;> rfl

/-- Witness for `gemini_resolution_lenient`: the pro-substring fallback fires
on the unknown name `"my-pro-model"` and the flash fallback on
`"made-up-model"`. -/
theorem gemini_resolution_lenient_witness :
    findEntry "my-pro-model".toList GEMINI_PRICINGS = none ∧
    hasSub "pro".toList "my-pro-model".toList = true ∧
    gemini_get_pricing "my-pro-model".toList "default".toList = some geminiProDefault ∧
    findEntry "made-up-model".toList GEMINI_PRICINGS = none ∧
    hasSub "pro".toList "made-up-model".toList = false ∧
    gemini_get_pricing "made-up-model".toList "default".toList = some geminiFlashDefault :=
  ⟨by decide, by decide,
    gemini_resolution_lenient.1 "my-pro-model".toList (by decide) (by decide),
    by decide, by decide,
    gemini_resolution_lenient.2.1 "made-up-model".toList (by decide) (by decide)⟩

/-- Appending a date suffix and reversing yields the reversed suffix in front
of the reversed name. -/
theorem reverse_append_date (name : List Char) (y1 y2 y3 y4 m1 m2 d1 d2 : Char) :
    (name ++ ['-', y1, y2, y3, y4, '-', m1, m2, '-', d1, d2]).reverse =
      d2 :: d1 :: '-' :: m2 :: m1 :: '-' :: y4 :: y3 :: y2 :: y1 :: '-' :: name.reverse := by
  simp

/-- C8 (amended): normalization strips exactly one trailing `-YYYY-MM-DD`
suffix; hence for every model name that does not itself end in a date suffix
the date-suffixed and bare names resolve identically, and in particular
`gpt-4.1-nano-2025-04-14` resolves like `gpt-4.1-nano` for every tier. -/
theorem date_suffix_normalization :
    (∀ (name : List Char) (y1 y2 y3 y4 m1 m2 d1 d2 : Char),
      y1.isDigit → y2.isDigit → y3.isDigit → y4.isDigit →
      m1.isDigit → m2.isDigit → d1.isDigit → d2.isDigit →
      strip_date_suffix (name ++ ['-', y1, y2, y3, y4, '-', m1, m2, '-', d1, d2]) = name) ∧
    (∀ (name tier : List Char) (y1 y2 y3 y4 m1 m2 d1 d2 : Char),
      y1.isDigit → y2.isDigit → y3.isDigit → y4.isDigit →
      m1.isDigit → m2.isDigit → d1.isDigit → d2.isDigit →
      revDateMatch name.reverse = false →
      openai_resolve (name ++ ['-', y1, y2, y3, y4, '-', m1, m2, '-', d1, d2]) tier =
        openai_resolve name tier) ∧
    (∀ tier, openai_resolve "gpt-4.1-nano-2025-04-14".toList tier =
      openai_resolve "gpt-4.1-nano".toList tier) := by
  have hstrip : ∀ (name : List Char) (y1 y2 y3 y4 m1 m2 d1 d2 : Char),
      y1.isDigit → y2.isDigit → y3.isDigit → y4.isDigit →
      m1.isDigit → m2.isDigit → d1.isDigit → d2.isDigit →
      strip_date_suffix (name ++ ['-', y1, y2, y3, y4, '-', m1, m2, '-', d1, d2]) = name := by
    intro name y1 y2 y3 y4 m1 m2 d1 d2 hy1 hy2 hy3 hy4 hm1 hm2 hd1 hd2
    unfold strip_date_suffix
    rw [reverse_append_date]
    have hmatch : revDateMatch
        (d2 :: d1 :: '-' :: m2 :: m1 :: '-' :: y4 :: y3 :: y2 :: y1 :: '-' :: name.reverse) =
        true := by
      simp [revDateMatch, hy1, hy2, hy3, hy4, hm1, hm2, hd1, hd2]
    rw [hmatch]
    simp [List.drop]
  refine ⟨hstrip, ?_, ?_⟩
  · intro name tier y1 y2 y3 y4 m1 m2 d1 d2 hy1 hy2 hy3 hy4 hm1 hm2 hd1 hd2 hname
    unfold openai_resolve
    rw [hstrip name y1 y2 y3 y4 m1 m2 d1 d2 hy1 hy2 hy3 hy4 hm1 hm2 hd1 hd2]
    have : strip_date_suffix name = name := by
      unfold strip_date_suffix
      rw [hname]
      rfl
    rw [this]
  · intro tier
    unfold openai_resolve
    have h1 : strip_date_suffix "gpt-4.1-nano-2025-04-14".toList = "gpt-4.1-nano".toList := by
      decide
    have h2 : strip_date_suffix "gpt-4.1-nano".toList = "gpt-4.1-nano".toList := by
      decide
    rw [h1, h2]

/-- Witness for `date_suffix_normalization` at the concrete snapshot
identifier of the spec. -/
theorem date_suffix_normalization_witness :
    ('2' : Char).isDigit = true ∧
    revDateMatch ("gpt-4.1-nano".toList).reverse = false ∧
    openai_resolve ("gpt-4.1-nano".toList ++
        ['-', '2', '0', '2', '5', '-', '0', '4', '-', '1', '4']) "default".toList =
      openai_resolve "gpt-4.1-nano".toList "default".toList :=
  ⟨by decide, by decide,
    date_suffix_normalization.2.1 "gpt-4.1-nano".toList "default".toList
      '2' '0' '2' '5' '0' '4' '1' '4'
      (by decide) (by decide) (by decide) (by decide) (by decide) (by decide)
      (by decide) (by decide) (by decide)⟩

/-- C8 counterexample: stripping is applied once, so when the bare name
itself ends in a date suffix the claimed equivalence fails — appending a
further date suffix to `gpt-4.1-nano-2025-04-14` resolves to an
unknown-model error while the bare name resolves to the gpt-4.1-nano
default record. -/
theorem date_suffix_double_cex :
    openai_resolve "gpt-4.1-nano-2025-04-14-2026-01-01".toList "default".toList =
      .error (.unknownModel "gpt-4.1-nano-2025-04-14".toList) ∧
    openai_resolve "gpt-4.1-nano-2025-04-14".toList "default".toList =
      .ok gpt41nanoDefault ∧
    Except.error (PricingError.unknownModel "gpt-4.1-nano-2025-04-14".toList) ≠
      (Except.ok gpt41nanoDefault : Except PricingError ModelPricing) := by
  refine ⟨by decide, by decide, by decide⟩

/-- C3 counterexample: an OpenAI LLM usage with `cached_tokens = 200` greater
than `input_tokens = 100` is not rejected — `get_price` succeeds and prices
the negative uncached count, yielding a negative `input_price`. -/
theorem negative_cached_not_rejected_cex :
    openai_get_price_llm "gpt-4.1-nano".toList "default".toList 100 0 200 =
      .ok (ResponsePrice.from_tokens gpt41nanoDefault (100 - 200) 200 0) ∧
    (ResponsePrice.from_tokens gpt41nanoDefault (100 - 200) 200 0).input_price =
      -(1/100000) := by
  refine ⟨by decide, by decide⟩

/-- C3 (amended): the extraction performs no usage validation — whenever the
model and tier resolve, `get_price` prices `input_tokens - cached_tokens`
unconditionally, and when `cached_tokens > input_tokens` (with a positive
input rate) the resulting `input_price` is strictly negative rather than an
error. -/
theorem negative_cached_priced (m t : List Char) (i o c : ℤ) (p : ModelPricing)
    (hres : openai_get_pricing (strip_date_suffix m) t = .ok p) :
    openai_get_price_llm m t i o c = .ok (ResponsePrice.from_tokens p (i - c) c o) ∧
    (i < c → 0 < p.input →
      (ResponsePrice.from_tokens p (i - c) c o).input_price < 0) := by
  constructor
  · unfold openai_get_price_llm
    rw [hres]
  · intro hic hp
    show ((i - c : ℤ) : ℚ) * p.input / 1000000 < 0
    have hneg : ((i - c : ℤ) : ℚ) < 0 := by
      rw [Int.cast_lt_zero]
      omega
    exact div_neg_of_neg_of_pos (mul_neg_of_neg_of_pos hneg hp) (by norm_num)

/-- Witness for `negative_cached_priced`: gpt-4.1-nano default tier with
input 100, cached 200. -/
theorem negative_cached_priced_witness :
    openai_get_pricing (strip_date_suffix "gpt-4.1-nano".toList) "default".toList =
      .ok gpt41nanoDefault ∧
    (100 : ℤ) < 200 ∧ (0 : ℚ) < gpt41nanoDefault.input ∧
    openai_get_price_llm "gpt-4.1-nano".toList "default".toList 100 0 200 =
      .ok (ResponsePrice.from_tokens gpt41nanoDefault (100 - 200) 200 0) ∧
    (ResponsePrice.from_tokens gpt41nanoDefault (100 - 200) 200 0).input_price < 0 :=
  ⟨by decide, by decide, by decide,
    (negative_cached_priced "gpt-4.1-nano".toList "default".toList 100 0 200
      gpt41nanoDefault (by decide)).1,
    (negative_cached_priced "gpt-4.1-nano".toList "default".toList 100 0 200
      gpt41nanoDefault (by decide)).2 (by decide) (by decide)⟩

/-- C9 counterexample: a `dict` response with a usage sub-record holding
token counts (no `seconds` key) is routed to the OpenAI calculator, which —
the value having no `model` attribute — treats it as STT, not as LLM token
extraction. -/
theorem dict_usage_route_cex :
    route
      { has_usage_metadata := false, has_service_tier := false,
        is_openai_response_type := false, is_dict := true,
        has_model_attr := false, dict_usage := some false } = .ok .openaiSTT ∧
    Route.openaiSTT ≠ Route.openaiLLM := by
  refine ⟨by decide, by decide⟩

/-- C9 (amended): with no explicit provider, detection applies in source
order — (1) a usage-metadata container means Gemini; (2) a service-tier
field or the OpenAI response type means OpenAI (LLM when the `model`
attribute is present); (3) a `dict` whose usage has a `seconds` field means
OpenAI and, lacking a `model` attribute, STT; (4) a `dict` with any other
usage sub-record is likewise routed to OpenAI but — lacking a `model`
attribute — lands in the STT branch, not token extraction; (5) otherwise
detection fails with the provider-detection error. -/
theorem detection_order :
    (∀ r : PyValue, r.has_usage_metadata = true → route r = .ok .gemini) ∧
    (∀ r : PyValue, r.has_usage_metadata = false →
      (r.has_service_tier = true ∨ r.is_openai_response_type = true) →
      r.has_model_attr = true → route r = .ok .openaiLLM) ∧
    (∀ r : PyValue, r.has_usage_metadata = false → r.has_service_tier = false →
      r.is_openai_response_type = false → r.is_dict = true → r.dict_usage = some true →
      r.has_model_attr = false → route r = .ok .openaiSTT) ∧
    (∀ r : PyValue, r.has_usage_metadata = false → r.has_service_tier = false →
      r.is_openai_response_type = false → r.is_dict = true → r.dict_usage = some false →
      r.has_model_attr = false → route r = .ok .openaiSTT) ∧
    (∀ r : PyValue, r.has_usage_metadata = false → r.has_service_tier = false →
      r.is_openai_response_type = false → (r.is_dict = false ∨ r.dict_usage = none) →
      detect_provider r = .error .providerDetection) := by
  refine ⟨?_, ?_, ?_, ?_, ?_⟩
  · intro r h
    simp [route, detect_provider, h]
  · intro r h1 h2 h3
    rcases h2 with h2 | h2 <;> simp [route, detect_provider, h1, h2, h3]
  · intro r h1 h2 h3 h4 h5 h6
    simp [route, detect_provider, h1, h2, h3, h4, h5, h6]
  · intro r h1 h2 h3 h4 h5 h6
    simp [route, detect_provider, h1, h2, h3, h4, h5, h6]
  · intro r h1 h2 h3 h4
    rcases h4 with h4 | h4 <;> simp [detect_provider, h1, h2, h3, h4]

/-- Witness for `detection_order` at one concrete response shape per rule. -/
theorem detection_order_witness :
    route
      { has_usage_metadata := true, has_service_tier := true,
        is_openai_response_type := false, is_dict := false,
        has_model_attr := true, dict_usage := none } = .ok .gemini ∧
    route
      { has_usage_metadata := false, has_service_tier := true,
        is_openai_response_type := false, is_dict := false,
        has_model_attr := true, dict_usage := none } = .ok .openaiLLM ∧
    route
      { has_usage_metadata := false, has_service_tier := false,
        is_openai_response_type := false, is_dict := true,
        has_model_attr := false, dict_usage := some true } = .ok .openaiSTT ∧
    detect_provider
      { has_usage_metadata := false, has_service_tier := false,
        is_openai_response_type := false, is_dict := false,
        has_model_attr := false, dict_usage := none } = .error .providerDetection :=
  ⟨detection_order.1 _ rfl,
    detection_order.2.1 _ rfl (.inl rfl) rfl,
    detection_order.2.2.1 _ rfl rfl rfl rfl rfl rfl,
    detection_order.2.2.2.2 _ rfl rfl rfl (.inl rfl)⟩

/-- C4 counterexample: the call-count suffix is rendered in French
(`appels` / `par appel`), not as the claimed `calls` / `per call` text; and
at `decimal_places = 0` the trailing-zero stripping eats integer digits, so
the integer-valued price 100 renders as `1` instead of keeping its integer
digits and one decimal digit. -/
theorem render_wording_cex :
    ResponsePrice.formatHumanReadable
      { input_price := 1, total_price := 1, quantity := 2 } 8 =
      "$1.0 (input, 100%) = $1.0 total (x2 appels, $0.5 par appel)".toList ∧
    "$1.0 (input, 100%) = $1.0 total (x2 appels, $0.5 par appel)".toList ≠
      "$1.0 (input, 100%) = $1.0 total (x2 calls, $0.5 per call)".toList ∧
    format_price 0 100 = "1".toList ∧
    "1".toList ≠ "100.0".toList := by
  refine ⟨by decide, by decide, by decide, by decide⟩

/-- Mapping over the filtered three-component list unfolds to three
conditional singletons. -/
theorem three_filter_map (p : ℚ × List Char → Bool) (f : ℚ × List Char → List Char)
    (c1 c2 c3 : ℚ × List Char) :
    ([c1, c2, c3].filter p).map f =
      (if p c1 then [f c1] else []) ++ (if p c2 then [f c2] else []) ++
        (if p c3 then [f c3] else []) := by
  cases h1 : p c1 <;> cases h2 : p c2 <;> cases h3 : p c3 <;> simp [h1, h2, h3]

/-- For a non-negative price, keeping a component when it is non-zero is the
same as keeping it when it is strictly positive. -/
theorem include_nonneg {q : ℚ} (hq : 0 ≤ q) (x : List Char) :
    (if decide (q ≠ 0) then [x] else ([] : List (List Char))) =
      if 0 < q then [x] else [] := by
  rcases hq.lt_or_eq with h | h
  · rw [if_pos (decide_eq_true h.ne'), if_pos h]
  · rw [← h]
    norm_num

/-- A character that the predicate rejects survives `dropWhile`. -/
theorem mem_dropWhile_of_not (p : Char → Bool) (c : Char) (hc : p c = false) :
    ∀ l : List Char, c ∈ l → c ∈ l.dropWhile p := by
  intro l
  induction l with
  | nil => intro h; exact absurd h (List.not_mem_nil c)
  | cons a t ih =>
    intro h
    cases ha : p a with
    | true =>
      rw [List.dropWhile_cons_of_pos ha]
      rcases List.mem_cons.mp h with rfl | ht
      · rw [hc] at ha; exact Bool.noConfusion ha
      · exact ih ht
    | false =>
      rw [List.dropWhile_cons_of_neg (by simp [ha])]
      exact h

/-- With at least one decimal place requested, the fixed-format rendering
contains a decimal point. -/
theorem point_mem_fixedFmt (dp : ℕ) (hdp : 1 ≤ dp) (v : ℚ) :
    '.' ∈ fixedFmt dp v := by
  have habs : ∀ w : ℚ, '.' ∈ fixedFmtAbs dp w := by
    intro w
    unfold fixedFmtAbs
    rw [if_neg (by omega)]
    simp
  unfold fixedFmt
  split
  · exact List.mem_cons_of_mem _ (habs _)
  · exact habs _

/-- C4 (amended): the rendered breakdown follows the specified template —
components whose price is exactly 0 are omitted (for the non-negative prices
of the data model), percentages are `round(100 * component / total)` with 0
for a zero total, and the per-call suffix (in the code's French wording)
appears exactly when `quantity > 1`; for `decimal_places ≥ 1` every
formatted number keeps a decimal point and at least one digit after it; and
the concrete formattings are `12.340000 → 12.34`, `12.000000 → 12.0`, and
the integer-valued 100 at eight decimals renders `100.0`. -/
theorem render_contract :
    (∀ (r : ResponsePrice) (dp : ℕ), 0 ≤ r.input_price → 0 ≤ r.input_cached_price →
      0 ≤ r.output_price → r.formatHumanReadable dp = renderSpec r dp) ∧
    (∀ (v : ℚ) (dp : ℕ), 1 ≤ dp →
      '.' ∈ format_price dp v ∧ (format_price dp v).getLast? ≠ some '.') ∧
    format_price 6 12.34 = "12.34".toList ∧
    format_price 6 12 = "12.0".toList ∧
    format_price 8 100 = "100.0".toList := by
  refine ⟨?_, ?_, by decide, by decide, by decide⟩
  · intro r dp h1 h2 h3
    unfold ResponsePrice.formatHumanReadable renderSpec
    dsimp only
    rw [three_filter_map]
    simp only [get_percentage]
    rw [include_nonneg h1, include_nonneg h2, include_nonneg h3]
  · intro v dp hdp
    constructor
    · unfold format_price
      dsimp only
      have hmem : '.' ∈ rstripZeros (fixedFmt dp v) := by
        unfold rstripZeros
        rw [List.mem_reverse]
        exact mem_dropWhile_of_not _ '.' (by decide) _
          (List.mem_reverse.mpr (point_mem_fixedFmt dp hdp v))
      split
      · exact List.mem_append_left _ hmem
      · exact hmem
    · unfold format_price
      dsimp only
      split
      · rw [List.getLast?_concat]
        decide
      · assumption

/-- Witness for `render_contract` at a concrete aggregate and format call. -/
theorem render_contract_witness :
    (0 : ℚ) ≤ 1 ∧
    ResponsePrice.formatHumanReadable { input_price := 1, total_price := 1 } 8 =
      renderSpec { input_price := 1, total_price := 1 } 8 ∧
    1 ≤ 8 ∧ '.' ∈ format_price 8 (1/3) ∧
    (format_price 8 (1/3)).getLast? ≠ some '.' :=
  ⟨by decide,
    render_contract.1 { input_price := 1, total_price := 1 } 8 (by decide) (by decide)
      (by decide),
    by decide,
    (render_contract.2.1 (1/3) 8 (by decide)).1,
    (render_contract.2.1 (1/3) 8 (by decide)).2⟩
